import Mathlib

set_option linter.unnecessarySeqFocus false
set_option linter.unreachableTactic false
set_option linter.unusedTactic false

/-!
# GeneGraph server: shallow embedding and verification

A shallow embedding, in exact rational arithmetic, of the computational core
of `server.py`: the gate partition table, the longitude → (gate, line)
classifier, the solar-arc design-time resolver, the body-position snapshot,
and the center/channel classifier, together with theorems settling the
specification claims against these definitions.
-/

namespace GeneGraph

/-- Python's `%` on reals with positive modulus: `x - y * ⌊x / y⌋`. -/
def pymod (x y : ℚ) : ℚ := x - y * ⌊x / y⌋

/-- Source `dms_to_deg`: degrees, minutes, seconds to decimal degrees
(`float(d) + float(m)/60.0 + float(s)/3600.0`). -/
def dms_to_deg (d m s : ℚ) : ℚ := d + m / 60 + s / 3600

/-- One row of a sign's gate table after numeric conversion
(`SIGN_INTERVALS` entry): `{"gate": …, "start": …, "end": …}`.
The Python dict key `end` is spelled `stop` here. -/
structure Seg where
  gate : ℕ
  start : ℚ
  stop : ℚ
  deriving DecidableEq, Repr

/-- Source `SIGNS` list. -/
def SIGNS : List String :=
  ["Aries","Taurus","Gemini","Cancer","Leo","Virgo","Libra","Scorpio",
   "Sagittarius","Capricorn","Aquarius","Pisces"]

/-- Source `GATE_SPAN = 5.625` (360/64 degrees). -/
def GATE_SPAN : ℚ := 5.625

/-- Source `LINE_SPAN = GATE_SPAN / 6.0` (0.9375 degrees). -/
def LINE_SPAN : ℚ := GATE_SPAN / 6

/-- Source `GATE_TABLE["Aries"]` after `dms_to_deg` conversion. -/
def ariesSegs : List Seg :=
  [⟨25, dms_to_deg 0 0 0,   dms_to_deg 3 52 30⟩,
      ⟨17, dms_to_deg 3 52 30, dms_to_deg 9 30 0⟩,
      ⟨21, dms_to_deg 9 30 0,  dms_to_deg 15 7 30⟩,
      ⟨51, dms_to_deg 15 7 30, dms_to_deg 20 45 0⟩,
      ⟨42, dms_to_deg 20 45 0, dms_to_deg 26 22 30⟩,
      ⟨3,  dms_to_deg 26 22 30, dms_to_deg 30 0 0⟩]

/-- Source `GATE_TABLE["Taurus"]` after `dms_to_deg` conversion. -/
def taurusSegs : List Seg :=
  [⟨3,  dms_to_deg 0 0 0,   dms_to_deg 2 0 0⟩,
      ⟨27, dms_to_deg 2 0 0,   dms_to_deg 7 37 30⟩,
      ⟨24, dms_to_deg 7 37 30, dms_to_deg 13 15 0⟩,
      ⟨2,  dms_to_deg 13 15 0, dms_to_deg 18 52 30⟩,
      ⟨23, dms_to_deg 18 52 30, dms_to_deg 24 30 0⟩,
      ⟨8,  dms_to_deg 24 30 0, dms_to_deg 30 0 0⟩]

/-- Source `GATE_TABLE["Gemini"]` after `dms_to_deg` conversion. -/
def geminiSegs : List Seg :=
  [⟨8,  dms_to_deg 0 0 0,   dms_to_deg 0 7 30⟩,
      ⟨20, dms_to_deg 0 7 30,  dms_to_deg 5 45 0⟩,
      ⟨16, dms_to_deg 5 45 0,  dms_to_deg 11 22 30⟩,
      ⟨35, dms_to_deg 11 22 30, dms_to_deg 17 0 0⟩,
      ⟨45, dms_to_deg 17 0 0,  dms_to_deg 22 37 30⟩,
      ⟨12, dms_to_deg 22 37 30, dms_to_deg 28 15 0⟩,
      ⟨15, dms_to_deg 28 15 0, dms_to_deg 30 0 0⟩]

/-- Source `GATE_TABLE["Cancer"]` after `dms_to_deg` conversion. -/
def cancerSegs : List Seg :=
  [⟨15, dms_to_deg 0 0 0,   dms_to_deg 3 52 30⟩,
      ⟨52, dms_to_deg 3 52 30, dms_to_deg 9 30 0⟩,
      ⟨39, dms_to_deg 9 30 0,  dms_to_deg 15 7 30⟩,
      ⟨53, dms_to_deg 15 7 30, dms_to_deg 20 45 0⟩,
      ⟨62, dms_to_deg 20 45 0, dms_to_deg 26 22 30⟩,
      ⟨56, dms_to_deg 26 22 30, dms_to_deg 30 0 0⟩]

/-- Source `GATE_TABLE["Leo"]` after `dms_to_deg` conversion. -/
def leoSegs : List Seg :=
  [⟨56, dms_to_deg 0 0 0,   dms_to_deg 2 0 0⟩,
      ⟨31, dms_to_deg 2 0 0,   dms_to_deg 7 37 30⟩,
      ⟨33, dms_to_deg 7 37 30, dms_to_deg 13 15 0⟩,
      ⟨7,  dms_to_deg 13 15 0, dms_to_deg 18 52 30⟩,
      ⟨4,  dms_to_deg 18 52 30, dms_to_deg 24 30 0⟩,
      ⟨29, dms_to_deg 24 30 0, dms_to_deg 30 0 0⟩]

/-- Source `GATE_TABLE["Virgo"]` after `dms_to_deg` conversion. -/
def virgoSegs : List Seg :=
  [⟨29, dms_to_deg 0 0 0,   dms_to_deg 0 7 30⟩,
      ⟨59, dms_to_deg 0 7 30,  dms_to_deg 5 45 0⟩,
      ⟨40, dms_to_deg 5 45 0,  dms_to_deg 11 22 30⟩,
      ⟨64, dms_to_deg 11 22 30, dms_to_deg 17 0 0⟩,
      ⟨47, dms_to_deg 17 0 0,  dms_to_deg 22 37 30⟩,
      ⟨6,  dms_to_deg 22 37 30, dms_to_deg 28 15 0⟩,
      ⟨46, dms_to_deg 28 15 0, dms_to_deg 30 0 0⟩]

/-- Source `GATE_TABLE["Libra"]` after `dms_to_deg` conversion. -/
def libraSegs : List Seg :=
  [⟨46, dms_to_deg 0 0 0,   dms_to_deg 3 52 30⟩,
      ⟨18, dms_to_deg 3 52 30, dms_to_deg 9 30 0⟩,
      ⟨48, dms_to_deg 9 30 0,  dms_to_deg 15 7 30⟩,
      ⟨57, dms_to_deg 15 7 30, dms_to_deg 20 45 0⟩,
      ⟨32, dms_to_deg 20 45 0, dms_to_deg 26 22 30⟩,
      ⟨50, dms_to_deg 26 22 30, dms_to_deg 30 0 0⟩]

/-- Source `GATE_TABLE["Scorpio"]` after `dms_to_deg` conversion. -/
def scorpioSegs : List Seg :=
  [⟨50, dms_to_deg 0 0 0,   dms_to_deg 2 0 0⟩,
      ⟨28, dms_to_deg 2 0 0,   dms_to_deg 7 37 30⟩,
      ⟨44, dms_to_deg 7 37 30, dms_to_deg 13 15 0⟩,
      ⟨1,  dms_to_deg 13 15 0, dms_to_deg 18 52 30⟩,
      ⟨43, dms_to_deg 18 52 30, dms_to_deg 24 30 0⟩,
      ⟨14, dms_to_deg 24 30 0, dms_to_deg 30 0 0⟩]

/-- Source `GATE_TABLE["Sagittarius"]` after `dms_to_deg` conversion. -/
def sagittariusSegs : List Seg :=
  [⟨14, dms_to_deg 0 0 0,   dms_to_deg 0 7 30⟩,
      ⟨34, dms_to_deg 0 7 30,  dms_to_deg 5 45 0⟩,
      ⟨9,  dms_to_deg 5 45 0,  dms_to_deg 11 22 30⟩,
      ⟨5,  dms_to_deg 11 22 30, dms_to_deg 17 0 0⟩,
      ⟨26, dms_to_deg 17 0 0,  dms_to_deg 22 37 30⟩,
      ⟨11, dms_to_deg 22 37 30, dms_to_deg 28 15 0⟩,
      ⟨10, dms_to_deg 28 15 0, dms_to_deg 30 0 0⟩]

/-- Source `GATE_TABLE["Capricorn"]` after `dms_to_deg` conversion. -/
def capricornSegs : List Seg :=
  [⟨10, dms_to_deg 0 0 0,   dms_to_deg 3 52 30⟩,
      ⟨58, dms_to_deg 3 52 30, dms_to_deg 9 30 0⟩,
      ⟨38, dms_to_deg 9 30 0,  dms_to_deg 15 7 30⟩,
      ⟨54, dms_to_deg 15 7 30, dms_to_deg 20 45 0⟩,
      ⟨61, dms_to_deg 20 45 0, dms_to_deg 26 22 30⟩,
      ⟨60, dms_to_deg 26 22 30, dms_to_deg 30 0 0⟩]

/-- Source `GATE_TABLE["Aquarius"]` after `dms_to_deg` conversion. -/
def aquariusSegs : List Seg :=
  [⟨60, dms_to_deg 0 0 0,   dms_to_deg 2 0 0⟩,
      ⟨41, dms_to_deg 2 0 0,   dms_to_deg 7 37 30⟩,
      ⟨19, dms_to_deg 7 37 30, dms_to_deg 13 15 0⟩,
      ⟨13, dms_to_deg 13 15 0, dms_to_deg 18 52 30⟩,
      ⟨49, dms_to_deg 18 52 30, dms_to_deg 24 30 0⟩,
      ⟨30, dms_to_deg 24 30 0, dms_to_deg 30 0 0⟩]

/-- Source `GATE_TABLE["Pisces"]` after `dms_to_deg` conversion. -/
def piscesSegs : List Seg :=
  [⟨30, dms_to_deg 0 0 0,   dms_to_deg 0 7 30⟩,
      ⟨55, dms_to_deg 0 7 30,  dms_to_deg 5 45 0⟩,
      ⟨37, dms_to_deg 5 45 0,  dms_to_deg 11 22 30⟩,
      ⟨63, dms_to_deg 11 22 30, dms_to_deg 17 0 0⟩,
      ⟨22, dms_to_deg 17 0 0,  dms_to_deg 22 37 30⟩,
      ⟨36, dms_to_deg 22 37 30, dms_to_deg 28 15 0⟩,
      ⟨25, dms_to_deg 28 15 0, dms_to_deg 30 0 0⟩]

/-- Source `SIGN_INTERVALS`: the `GATE_TABLE` DMS strings already pushed through
`dms_to_deg`, keyed by sign name, exactly as the build loop produces. -/
def SIGN_INTERVALS : List (String × List Seg) :=
  [("Aries", ariesSegs), ("Taurus", taurusSegs), ("Gemini", geminiSegs),
   ("Cancer", cancerSegs), ("Leo", leoSegs), ("Virgo", virgoSegs),
   ("Libra", libraSegs), ("Scorpio", scorpioSegs), ("Sagittarius", sagittariusSegs),
   ("Capricorn", capricornSegs), ("Aquarius", aquariusSegs), ("Pisces", piscesSegs)]

/-- Dict lookup `SIGN_INTERVALS[sign]` (first binding wins; the table has
distinct keys). An absent key yields `[]`; the Python dict access would
raise, and all call sites use one of the 12 present keys. -/
def lookupSign (sign : String) : List (String × List Seg) → List Seg
  | [] => []
  | (k, v) :: rest => if k = sign then v else lookupSign sign rest

/-- Intervals for a sign name: `SIGN_INTERVALS[sign]`. -/
def intervalsOf (sign : String) : List Seg :=
  lookupSign sign SIGN_INTERVALS

/-- Normalized longitude `lon = lon_deg % 360.0` (first line of
`longitude_to_sign_deg`). -/
def normLon (lon_deg : ℚ) : ℚ := pymod lon_deg 360

/-- Source `sign_index = int(lon // 30.0)` of `longitude_to_sign_deg`
(`lon` is nonnegative after the modulo, so `toNat` is faithful). -/
def signIdx (lon_deg : ℚ) : ℕ := (⌊normLon lon_deg / 30⌋).toNat

/-- Source `SIGNS[k]` (every call site has `k ≤ 11`, so the default is never hit). -/
def signName (k : ℕ) : String := SIGNS.getD k ""

/-- Python's `(sidx - 1) % 12`. -/
def prevIdx (k : ℕ) : ℕ := (((k : ℤ) - 1).emod 12).toNat

/-- Source `deg_in_sign = lon - sign_index*30.0`. -/
def degInSign (lon_deg : ℚ) : ℚ := normLon lon_deg - signIdx lon_deg * 30

/-- Source `longitude_to_sign_deg`: returns `(SIGNS[sign_index], sign_index,
deg_in_sign, lon)`. -/
def longitude_to_sign_deg (lon_deg : ℚ) : String × ℕ × ℚ × ℚ :=
  (signName (signIdx lon_deg), signIdx lon_deg, degInSign lon_deg,
   normLon lon_deg)

/-- The scan `for r in intervals: if r["start"] <= deg_in_sign < r["end"]:
target = r; break`: first matching segment, if any. -/
def findSeg (d : ℚ) : List Seg → Option Seg
  | [] => none
  | r :: rest => if r.start ≤ d ∧ d < r.stop then some r else findSeg d rest

/-- The selected segment: the scan's first match, or the edge-case fallback
`intervals[-1]` when no segment matches. -/
def targetSeg (l : List Seg) (d : ℚ) : Seg :=
  (findSeg d l).getD (l.getLastD ⟨0, 0, 0⟩)

/-- Source `math.isclose(a, b, abs_tol=1e-6)` with Python's default
`rel_tol=1e-9`: `|a-b| ≤ max(1e-9 * max(|a|,|b|), 1e-6)`. -/
def isclose (a b : ℚ) : Prop :=
  |a - b| ≤ max ((1 / 1000000000) * max |a| |b|) (1 / 1000000)

instance (a b : ℚ) : Decidable (isclose a b) := by unfold isclose; infer_instance

/-- Source `gate_line_from_longitude`: map absolute ecliptic longitude to
`(gate, line, sign, deg_in_sign)` with the cross-sign line correction. -/
def gate_line_from_longitude (lon_deg : ℚ) : ℕ × ℤ × String × ℚ :=
  let sign := signName (signIdx lon_deg)
  let sidx := signIdx lon_deg
  let deg_in_sign := degInSign lon_deg
  let abs_deg := normLon lon_deg
  let intervals := intervalsOf sign
  let target := targetSeg intervals deg_in_sign
  let gate := target.gate
  let prev_sign := signName (prevIdx sidx)
  let prev_last := (intervalsOf prev_sign).getLastD ⟨0, 0, 0⟩
  let global_start :=
    if prev_last.gate = gate ∧ isclose prev_last.stop 30 then
      ((sidx : ℚ) - 1) * 30 + prev_last.start
    else
      (sidx : ℚ) * 30 + target.start
  let offset := pymod (abs_deg - global_start) 360
  let line := max 1 (min 6 (⌊(offset + 1 / 1000000000) / LINE_SPAN⌋ + 1))
  (gate, line, sign, deg_in_sign)

/-! ## Basic facts about `pymod` and the sign decomposition -/

theorem pymod_nonneg (x : ℚ) {y : ℚ} (hy : 0 < y) : 0 ≤ pymod x y := by
  unfold pymod
  have h := Int.floor_le (x / y)
  have : y * (⌊x / y⌋ : ℚ) ≤ y * (x / y) := by
    exact mul_le_mul_of_nonneg_left h (le_of_lt hy)
  rw [mul_div_cancel₀ x (ne_of_gt hy)] at this
  linarith

theorem pymod_lt (x : ℚ) {y : ℚ} (hy : 0 < y) : pymod x y < y := by
  unfold pymod
  have h := Int.lt_floor_add_one (x / y)
  have : y * (x / y) < y * ((⌊x / y⌋ : ℚ) + 1) := by
    exact mul_lt_mul_of_pos_left h hy
  rw [mul_div_cancel₀ x (ne_of_gt hy)] at this
  nlinarith

theorem pymod_eq_self {x y : ℚ} (h0 : 0 ≤ x) (h1 : x < y) : pymod x y = x := by
  have hy : 0 < y := lt_of_le_of_lt h0 h1
  unfold pymod
  have hfl : ⌊x / y⌋ = 0 := by
    rw [Int.floor_eq_zero_iff]
    constructor
    · exact div_nonneg h0 (le_of_lt hy)
    · rw [div_lt_one hy]; exact h1
  rw [hfl]
  push_cast
  ring

theorem pymod_idem (x : ℚ) {y : ℚ} (hy : 0 < y) :
    pymod (pymod x y) y = pymod x y :=
  pymod_eq_self (pymod_nonneg x hy) (pymod_lt x hy)

/-- The unwrap-to-signed-arc identity: for `a ∈ [-180, 180)`,
`((a + 540) % 360) - 180 = a`. -/
theorem pymod_unwrap {a : ℚ} (h0 : -180 ≤ a) (h1 : a < 180) :
    pymod (a + 540) 360 - 180 = a := by
  unfold pymod
  have hfl : ⌊(a + 540) / 360⌋ = 1 := by
    rw [Int.floor_eq_iff]
    constructor
    · push_cast; rw [le_div_iff₀ (by norm_num : (0:ℚ) < 360)]; linarith
    · push_cast; rw [div_lt_iff₀ (by norm_num : (0:ℚ) < 360)]; linarith
  rw [hfl]
  push_cast
  ring

theorem normLon_nonneg (x : ℚ) : 0 ≤ normLon x := pymod_nonneg x (by norm_num)

theorem normLon_lt (x : ℚ) : normLon x < 360 := pymod_lt x (by norm_num)

theorem normLon_pymod (x : ℚ) : normLon (pymod x 360) = normLon x := by
  unfold normLon
  exact pymod_idem x (by norm_num)

theorem signIdx_le (x : ℚ) : signIdx x ≤ 11 := by
  unfold signIdx
  have h : ⌊normLon x / 30⌋ < 12 := by
    rw [Int.floor_lt]
    rw [div_lt_iff₀ (by norm_num : (0:ℚ) < 30)]
    push_cast
    linarith [normLon_lt x]
  omega

theorem signIdx_cast (x : ℚ) : ((signIdx x : ℤ) : ℚ) = (⌊normLon x / 30⌋ : ℚ) := by
  unfold signIdx
  have h : 0 ≤ ⌊normLon x / 30⌋ := by
    apply Int.floor_nonneg.mpr
    exact div_nonneg (normLon_nonneg x) (by norm_num)
  rw [Int.toNat_of_nonneg h]

theorem degInSign_nonneg (x : ℚ) : 0 ≤ degInSign x := by
  unfold degInSign
  have h := Int.floor_le (normLon x / 30)
  have h2 : (30:ℚ) * (⌊normLon x / 30⌋ : ℚ) ≤ 30 * (normLon x / 30) :=
    mul_le_mul_of_nonneg_left h (by norm_num)
  rw [mul_div_cancel₀ (normLon x) (by norm_num : (30:ℚ) ≠ 0)] at h2
  have h3 : ((signIdx x : ℚ)) = (⌊normLon x / 30⌋ : ℚ) := by
    have := signIdx_cast x
    push_cast at this ⊢
    exact_mod_cast this
  rw [h3]
  linarith

theorem degInSign_lt (x : ℚ) : degInSign x < 30 := by
  unfold degInSign
  have h := Int.lt_floor_add_one (normLon x / 30)
  have h2 : (30:ℚ) * (normLon x / 30) < 30 * ((⌊normLon x / 30⌋ : ℚ) + 1) :=
    mul_lt_mul_of_pos_left h (by norm_num)
  rw [mul_div_cancel₀ (normLon x) (by norm_num : (30:ℚ) ≠ 0)] at h2
  have h3 : ((signIdx x : ℚ)) = (⌊normLon x / 30⌋ : ℚ) := by
    have := signIdx_cast x
    push_cast at this ⊢
    exact_mod_cast this
  rw [h3]
  linarith

/-! ## Concrete reductions of the index and table helpers -/

theorem prevIdx_0 : prevIdx 0 = 11 := by decide

theorem prevIdx_1 : prevIdx 1 = 0 := by decide

theorem prevIdx_2 : prevIdx 2 = 1 := by decide

theorem prevIdx_3 : prevIdx 3 = 2 := by decide

theorem prevIdx_4 : prevIdx 4 = 3 := by decide

theorem prevIdx_5 : prevIdx 5 = 4 := by decide

theorem prevIdx_6 : prevIdx 6 = 5 := by decide

theorem prevIdx_7 : prevIdx 7 = 6 := by decide

theorem prevIdx_8 : prevIdx 8 = 7 := by decide

theorem prevIdx_9 : prevIdx 9 = 8 := by decide

theorem prevIdx_10 : prevIdx 10 = 9 := by decide

theorem prevIdx_11 : prevIdx 11 = 10 := by decide

theorem signName_0 : signName 0 = "Aries" := rfl

theorem signName_1 : signName 1 = "Taurus" := rfl

theorem signName_2 : signName 2 = "Gemini" := rfl

theorem signName_3 : signName 3 = "Cancer" := rfl

theorem signName_4 : signName 4 = "Leo" := rfl

theorem signName_5 : signName 5 = "Virgo" := rfl

theorem signName_6 : signName 6 = "Libra" := rfl

theorem signName_7 : signName 7 = "Scorpio" := rfl

theorem signName_8 : signName 8 = "Sagittarius" := rfl

theorem signName_9 : signName 9 = "Capricorn" := rfl

theorem signName_10 : signName 10 = "Aquarius" := rfl

theorem signName_11 : signName 11 = "Pisces" := rfl

theorem intervalsOf_aries : intervalsOf "Aries" = ariesSegs := rfl

theorem intervalsOf_taurus : intervalsOf "Taurus" = taurusSegs := rfl

theorem intervalsOf_gemini : intervalsOf "Gemini" = geminiSegs := rfl

theorem intervalsOf_cancer : intervalsOf "Cancer" = cancerSegs := rfl

theorem intervalsOf_leo : intervalsOf "Leo" = leoSegs := rfl

theorem intervalsOf_virgo : intervalsOf "Virgo" = virgoSegs := rfl

theorem intervalsOf_libra : intervalsOf "Libra" = libraSegs := rfl

theorem intervalsOf_scorpio : intervalsOf "Scorpio" = scorpioSegs := rfl

theorem intervalsOf_sagittarius : intervalsOf "Sagittarius" = sagittariusSegs := rfl

theorem intervalsOf_capricorn : intervalsOf "Capricorn" = capricornSegs := rfl

theorem intervalsOf_aquarius : intervalsOf "Aquarius" = aquariusSegs := rfl

theorem intervalsOf_pisces : intervalsOf "Pisces" = piscesSegs := rfl


/-! ## Segment-scan lemmas -/

theorem getLastD_mem {l : List Seg} (h : l ≠ []) (d : Seg) : l.getLastD d ∈ l := by
  induction l with
  | nil => exact absurd rfl h
  | cons x xs ih =>
    cases xs with
    | nil => simp [List.getLastD]
    | cons y ys =>
      have hmem := ih (by simp) 
      simp only [List.getLastD_cons] at *
      right
      exact hmem

theorem findSeg_mem {l : List Seg} {d : ℚ} {s : Seg}
    (h : findSeg d l = some s) : s ∈ l := by
  induction l with
  | nil => simp [findSeg] at h
  | cons x xs ih =>
    unfold findSeg at h
    by_cases hc : x.start ≤ d ∧ d < x.stop
    · rw [if_pos hc] at h
      injection h with h
      exact h ▸ List.mem_cons_self x xs
    · rw [if_neg hc] at h
      exact List.mem_cons_of_mem x (ih h)

theorem targetSeg_mem (l : List Seg) (d : ℚ) (h : l ≠ []) : targetSeg l d ∈ l := by
  unfold targetSeg
  cases hf : findSeg d l with
  | some s => simpa using findSeg_mem hf
  | none => simpa using getLastD_mem h ⟨0, 0, 0⟩

/-- Source `chainQ a b l`: the segments of `l`, in order, tile `[a, b)` with no
gap and no overlap: each segment starts where the previous one stopped,
every segment is nonempty, the first starts at `a` and the last stops
at `b`. -/
def chainQ (a b : ℚ) : List Seg → Prop
  | [] => a = b
  | s :: rest => s.start = a ∧ a < s.stop ∧ chainQ s.stop b rest

/-- On a chained list covering `[a, b)`, the linear scan finds a segment
for every `d` with `a ≤ d < b`: the `target is None` fallback is
unreachable. -/
theorem findSeg_isSome {l : List Seg} {a b d : ℚ} (hc : chainQ a b l)
    (h0 : a ≤ d) (h1 : d < b) : (findSeg d l).isSome := by
  induction l generalizing a with
  | nil => exact absurd (hc ▸ h1) (not_lt.mpr h0)
  | cons s rest ih =>
    obtain ⟨hs, _, hrest⟩ := hc
    unfold findSeg
    by_cases hd : d < s.stop
    · rw [if_pos ⟨hs ▸ h0, hd⟩]
      rfl
    · rw [if_neg (by tauto)]
      exact ih hrest (not_lt.mp hd)

/-! ## Per-sign table facts -/

theorem chainQ_aries : chainQ 0 30 ariesSegs := by
  norm_num [chainQ, ariesSegs, dms_to_deg]

theorem chainQ_taurus : chainQ 0 30 taurusSegs := by
  norm_num [chainQ, taurusSegs, dms_to_deg]

theorem chainQ_gemini : chainQ 0 30 geminiSegs := by
  norm_num [chainQ, geminiSegs, dms_to_deg]

theorem chainQ_cancer : chainQ 0 30 cancerSegs := by
  norm_num [chainQ, cancerSegs, dms_to_deg]

theorem chainQ_leo : chainQ 0 30 leoSegs := by
  norm_num [chainQ, leoSegs, dms_to_deg]

theorem chainQ_virgo : chainQ 0 30 virgoSegs := by
  norm_num [chainQ, virgoSegs, dms_to_deg]

theorem chainQ_libra : chainQ 0 30 libraSegs := by
  norm_num [chainQ, libraSegs, dms_to_deg]

theorem chainQ_scorpio : chainQ 0 30 scorpioSegs := by
  norm_num [chainQ, scorpioSegs, dms_to_deg]

theorem chainQ_sagittarius : chainQ 0 30 sagittariusSegs := by
  norm_num [chainQ, sagittariusSegs, dms_to_deg]

theorem chainQ_capricorn : chainQ 0 30 capricornSegs := by
  norm_num [chainQ, capricornSegs, dms_to_deg]

theorem chainQ_aquarius : chainQ 0 30 aquariusSegs := by
  norm_num [chainQ, aquariusSegs, dms_to_deg]

theorem chainQ_pisces : chainQ 0 30 piscesSegs := by
  norm_num [chainQ, piscesSegs, dms_to_deg]

theorem spans_aries : ((ariesSegs.map fun s => s.stop - s.start).sum) = 30 := by
  norm_num [ariesSegs, dms_to_deg]

theorem spans_taurus : ((taurusSegs.map fun s => s.stop - s.start).sum) = 30 := by
  norm_num [taurusSegs, dms_to_deg]

theorem spans_gemini : ((geminiSegs.map fun s => s.stop - s.start).sum) = 30 := by
  norm_num [geminiSegs, dms_to_deg]

theorem spans_cancer : ((cancerSegs.map fun s => s.stop - s.start).sum) = 30 := by
  norm_num [cancerSegs, dms_to_deg]

theorem spans_leo : ((leoSegs.map fun s => s.stop - s.start).sum) = 30 := by
  norm_num [leoSegs, dms_to_deg]

theorem spans_virgo : ((virgoSegs.map fun s => s.stop - s.start).sum) = 30 := by
  norm_num [virgoSegs, dms_to_deg]

theorem spans_libra : ((libraSegs.map fun s => s.stop - s.start).sum) = 30 := by
  norm_num [libraSegs, dms_to_deg]

theorem spans_scorpio : ((scorpioSegs.map fun s => s.stop - s.start).sum) = 30 := by
  norm_num [scorpioSegs, dms_to_deg]

theorem spans_sagittarius : ((sagittariusSegs.map fun s => s.stop - s.start).sum) = 30 := by
  norm_num [sagittariusSegs, dms_to_deg]

theorem spans_capricorn : ((capricornSegs.map fun s => s.stop - s.start).sum) = 30 := by
  norm_num [capricornSegs, dms_to_deg]

theorem spans_aquarius : ((aquariusSegs.map fun s => s.stop - s.start).sum) = 30 := by
  norm_num [aquariusSegs, dms_to_deg]

theorem spans_pisces : ((piscesSegs.map fun s => s.stop - s.start).sum) = 30 := by
  norm_num [piscesSegs, dms_to_deg]

/-- Every sign's interval list tiles `[0, 30)`. -/
theorem intervals_chain (k : ℕ) (hk : k ≤ 11) :
    chainQ 0 30 (intervalsOf (signName k)) := by
  interval_cases k
  · rw [signName_0, intervalsOf_aries]; exact chainQ_aries
  · rw [signName_1, intervalsOf_taurus]; exact chainQ_taurus
  · rw [signName_2, intervalsOf_gemini]; exact chainQ_gemini
  · rw [signName_3, intervalsOf_cancer]; exact chainQ_cancer
  · rw [signName_4, intervalsOf_leo]; exact chainQ_leo
  · rw [signName_5, intervalsOf_virgo]; exact chainQ_virgo
  · rw [signName_6, intervalsOf_libra]; exact chainQ_libra
  · rw [signName_7, intervalsOf_scorpio]; exact chainQ_scorpio
  · rw [signName_8, intervalsOf_sagittarius]; exact chainQ_sagittarius
  · rw [signName_9, intervalsOf_capricorn]; exact chainQ_capricorn
  · rw [signName_10, intervalsOf_aquarius]; exact chainQ_aquarius
  · rw [signName_11, intervalsOf_pisces]; exact chainQ_pisces

/-- Every sign's interval list is nonempty. -/
theorem intervals_ne (k : ℕ) (hk : k ≤ 11) : intervalsOf (signName k) ≠ [] := by
  interval_cases k <;> decide

/-- Every gate number in every sign's interval list lies in `[1, 64]`. -/
theorem intervals_gates (k : ℕ) (hk : k ≤ 11) :
    ∀ s ∈ intervalsOf (signName k), 1 ≤ s.gate ∧ s.gate ≤ 64 := by
  interval_cases k <;> decide


/-! ## Channels and the center/channel classifier (`compute_hd`) -/

/-- One entry of the `CHANNELS` table:
`{"id": …, "gates": [a, b], "centers": [c1, c2]}`. -/
structure Channel where
  id : String
  gates : List ℕ
  centers : List String
  deriving DecidableEq, Repr

/-- The `CHANNELS` table, verbatim. -/
def CHANNELS : List Channel :=
  [⟨"1-8", [1,8], ["G","Throat"]⟩,
   ⟨"2-14", [2,14], ["G","Sacral"]⟩,
   ⟨"3-60", [3,60], ["Sacral","Root"]⟩,
   ⟨"4-63", [4,63], ["Ajna","Head"]⟩,
   ⟨"5-15", [5,15], ["Sacral","G"]⟩,
   ⟨"6-59", [6,59], ["Solar Plexus","Sacral"]⟩,
   ⟨"7-31", [7,31], ["G","Throat"]⟩,
   ⟨"9-52", [9,52], ["Sacral","Root"]⟩,
   ⟨"10-20", [10,20], ["G","Throat"]⟩,
   ⟨"10-34", [10,34], ["G","Sacral"]⟩,
   ⟨"10-57", [10,57], ["G","Spleen"]⟩,
   ⟨"11-56", [11,56], ["Ajna","Throat"]⟩,
   ⟨"12-22", [12,22], ["Throat","Solar Plexus"]⟩,
   ⟨"13-33", [13,33], ["G","Throat"]⟩,
   ⟨"16-48", [16,48], ["Throat","Spleen"]⟩,
   ⟨"17-62", [17,62], ["Ajna","Throat"]⟩,
   ⟨"18-58", [18,58], ["Spleen","Root"]⟩,
   ⟨"19-49", [19,49], ["Root","Solar Plexus"]⟩,
   ⟨"20-34", [20,34], ["Throat","Sacral"]⟩,
   ⟨"20-57", [20,57], ["Throat","Spleen"]⟩,
   ⟨"21-45", [21,45], ["Heart","Throat"]⟩,
   ⟨"23-43", [23,43], ["Ajna","Throat"]⟩,
   ⟨"24-61", [24,61], ["Ajna","Head"]⟩,
   ⟨"25-51", [25,51], ["G","Heart"]⟩,
   ⟨"26-44", [26,44], ["Heart","Spleen"]⟩,
   ⟨"27-50", [27,50], ["Sacral","Spleen"]⟩,
   ⟨"28-38", [28,38], ["Spleen","Root"]⟩,
   ⟨"29-46", [29,46], ["Sacral","G"]⟩,
   ⟨"30-41", [30,41], ["Solar Plexus","Root"]⟩,
   ⟨"32-54", [32,54], ["Spleen","Root"]⟩,
   ⟨"34-57", [34,57], ["Sacral","Spleen"]⟩,
   ⟨"35-36", [35,36], ["Throat","Solar Plexus"]⟩,
   ⟨"37-40", [37,40], ["Solar Plexus","Heart"]⟩,
   ⟨"39-55", [39,55], ["Root","Solar Plexus"]⟩,
   ⟨"42-53", [42,53], ["Sacral","Root"]⟩,
   ⟨"47-64", [47,64], ["Ajna","Head"]⟩]

/-- One body's record in a snapshot, as built by `compute_bodies`. -/
structure BodyRec where
  lon : ℚ
  sign : String
  deg_in_sign : ℚ
  gate : ℕ
  line : ℤ
  deriving DecidableEq, Repr

/-- A snapshot: the `compute_bodies` dict, body identifier → record,
in insertion order. -/
abbrev Snapshot : Type := List (String × BodyRec)

/-- The active-gate set (`active`): every record's gate across both
snapshots.  Python uses a `set`, which only ever feeds membership tests,
so a list with the same members is a faithful model. -/
def activeGates (natal design : Snapshot) : List ℕ :=
  ((natal ++ design : List (String × BodyRec)).map (fun p => p.2.gate))

/-- Source `a, b = ch["gates"]; a in active and b in active` for one channel. -/
def channelDefined (natal design : Snapshot) (ch : Channel) : Prop :=
  ch.gates.getD 0 0 ∈ activeGates natal design ∧
  ch.gates.getD 1 0 ∈ activeGates natal design

instance (natal design : Snapshot) (ch : Channel) :
    Decidable (channelDefined natal design ch) := by
  unfold channelDefined; infer_instance

/-- Source `defined_channels`: ids of the channels whose both gates are active,
in table order. -/
def definedChannels (natal design : Snapshot) : List String :=
  (CHANNELS.filter (fun ch => decide (channelDefined natal design ch))).map
    (fun ch => ch.id)

/-- Source `defined_centers` as a flat list (Python accumulates a set; only
membership, emptiness and the sorted listing are ever consumed). -/
def definedCentersFlat (natal design : Snapshot) : List String :=
  (CHANNELS.filter (fun ch => decide (channelDefined natal design ch))).flatMap
    (fun ch => ch.centers)

/-- Lexicographic comparison of char sequences by code point, the order
Python's `sorted` uses on strings. -/
def charListLe : List Char → List Char → Bool
  | [], _ => true
  | _ :: _, [] => false
  | a :: as, b :: bs =>
    if a.toNat < b.toNat then true
    else if b.toNat < a.toNat then false
    else charListLe as bs

/-- String comparison by code point. -/
def strLe (a b : String) : Bool := charListLe a.data b.data

/-- Insertion of a string into a sorted list (ascending). -/
def insertSorted (x : String) : List String → List String
  | [] => [x]
  | y :: ys => if strLe x y then x :: y :: ys else y :: insertSorted x ys

/-- Insertion sort, modelling Python's `sorted` on a set of strings. -/
def sortStrings : List String → List String
  | [] => []
  | x :: xs => insertSorted x (sortStrings xs)

/-- Source `centers_list = sorted(defined_centers)`. -/
def centersList (natal design : Snapshot) : List String :=
  sortStrings (definedCentersFlat natal design).dedup

/-- The motor set of `throat_has_motor`. -/
def MOTORS : List String := ["Heart", "Solar Plexus", "Sacral", "Root"]

/-- Source `throat_has_motor()`: some defined channel touches Throat and a motor
center. -/
def throat_has_motor (natal design : Snapshot) : Prop :=
  ∃ ch ∈ CHANNELS, ch.id ∈ definedChannels natal design ∧
    "Throat" ∈ ch.centers ∧ ∃ c ∈ ch.centers, c ∈ MOTORS

instance (natal design : Snapshot) :
    Decidable (throat_has_motor natal design) := by
  unfold throat_has_motor; infer_instance

/-- The result record of `compute_hd`. -/
structure HDResult where
  channels : List String
  definedCenters : List String
  hdType : String
  strategy : String
  authority : String
  deriving DecidableEq, Repr

/-- Source `compute_hd`: channels, centers and the type/strategy/authority
classification. -/
def compute_hd (natal design : Snapshot) : HDResult :=
  let defined_channels := definedChannels natal design
  let centers_list := centersList natal design
  let hasCenter := fun c => c ∈ definedCentersFlat natal design
  if centers_list = [] then
    { channels := defined_channels, definedCenters := centers_list,
      hdType := "Reflector", strategy := "Wait a lunar cycle (~28 days)",
      authority := "Lunar" }
  else
    let ts : String × String :=
      if hasCenter "Sacral" then
        if throat_has_motor natal design then
          ("Manifesting Generator", "Wait to respond, then inform")
        else ("Generator", "Wait to respond")
      else
        if throat_has_motor natal design then
          ("Manifestor", "Inform before acting")
        else ("Projector", "Wait for the invitation")
    let authority :=
      if hasCenter "Solar Plexus" then "Emotional"
      else if hasCenter "Sacral" then "Sacral"
      else if hasCenter "Spleen" then "Splenic"
      else if hasCenter "Heart" then "Ego"
      else if hasCenter "G" ∧ hasCenter "Throat" then "Self-Projected"
      else "Environmental"
    { channels := defined_channels, definedCenters := centers_list,
      hdType := ts.1, strategy := ts.2, authority := authority }

/-! ## Body position snapshots (`compute_bodies`) -/

/-- The key map inside `ecliptic_longitude_deg` (body → ephemeris key). -/
def BODY_KEYS : List (String × String) :=
  [("sun", "sun"), ("moon", "moon"), ("mercury", "mercury"),
   ("venus", "venus"), ("mars", "mars"), ("jupiter", "jupiter barycenter"),
   ("saturn", "saturn barycenter"), ("uranus", "uranus barycenter"),
   ("neptune", "neptune barycenter"), ("pluto", "pluto barycenter")]

/-- Source `ecliptic_longitude_deg`, abstracted over the Skyfield observation.
`p key` is `lon.degrees` of observing `EPH[key]` at the instant under
consideration; `none` models a provider failure (including the `KeyError`
on an unsupported body).  The synthetic "earth" body is the sun's
longitude plus 180, never a direct provider query. -/
def ecliptic_longitude_deg (p : String → Option ℚ) (body : String) : Option ℚ :=
  if body = "earth" then
    (p "sun").map (fun l => pymod (l + 180) 360)
  else
    match BODY_KEYS.lookup body with
    | none => none
    | some key => (p key).map (fun l => pymod l 360)

/-- Source `round`: Python's banker's rounding (nearest integer, ties to even). -/
def roundHalfEven (x : ℚ) : ℤ :=
  if x - ⌊x⌋ < 1/2 then ⌊x⌋
  else if 1/2 < x - ⌊x⌋ then ⌊x⌋ + 1
  else if Even ⌊x⌋ then ⌊x⌋ else ⌊x⌋ + 1

/-- Source `round(x, 6)`. -/
def pyround6 (x : ℚ) : ℚ := (roundHalfEven (x * 1000000) : ℚ) / 1000000

/-- The record built for one body from its longitude. -/
def mkBodyRec (lon : ℚ) : BodyRec :=
  let r := gate_line_from_longitude lon
  { lon := pyround6 lon, sign := r.2.2.1, deg_in_sign := pyround6 r.2.2.2,
    gate := r.1, line := r.2.1 }

/-- The tracked bodies, in loop order. -/
def TRACKED : List String :=
  ["sun", "moon", "mercury", "venus", "mars", "jupiter", "saturn",
   "uranus", "neptune", "pluto", "earth"]

/-- The `compute_bodies` loop over a body list: a provider failure on any
body aborts the whole snapshot (a Python exception propagates out of the
loop), otherwise each body's record is accumulated in order. -/
def compute_bodies_over (p : String → Option ℚ) : List String → Option Snapshot
  | [] => some []
  | b :: rest =>
    match ecliptic_longitude_deg p b with
    | none => none
    | some lon =>
      (compute_bodies_over p rest).map
        (fun out => ((b, mkBodyRec lon) :: out : List (String × BodyRec)))

/-- Source `compute_bodies` for one instant, with the instant already folded into
the provider `p`. -/
def compute_bodies (p : String → Option ℚ) : Option Snapshot :=
  compute_bodies_over p TRACKED

/-! ## The solar-arc design-time resolver -/

/-- Microseconds per day (`timedelta` resolution). -/
def MICROS_PER_DAY : ℚ := 86400000000

/-- Source `timedelta / 2`: `datetime.timedelta` division rounds the result to
the nearest microsecond, ties to even.  Time is measured in days. -/
def tdHalf (d : ℚ) : ℚ :=
  (roundHalfEven (d * MICROS_PER_DAY / 2) : ℚ) / MICROS_PER_DAY

/-- Source `TS.utc(dt.year, …, dt.second)`: rebuilding the Skyfield time from the
datetime's components drops the microseconds, truncating a (positive)
instant down to a whole second. -/
def secTrunc (t : ℚ) : ℚ := (⌊t * 86400⌋ : ℚ) / 86400

/-- Source `arc_err(dt)`: signed shortest arc of the sun from `sun0`, minus the
target arc of `-88`.  `sunLon` is the sun-longitude function of the
ephemeris provider (days → degrees). -/
def arc_err (sunLon : ℚ → ℚ) (sun0 : ℚ) (t : ℚ) : ℚ :=
  (pymod (sunLon (secTrunc t) - sun0 + 540) 360) - 180 - (-88)

/-- One iteration of the loop: `mid = lo + (hi - lo)/2;
if arc_err(mid) > 0: lo = mid else: hi = mid`. -/
def bisectStep (sunLon : ℚ → ℚ) (sun0 : ℚ) (s : ℚ × ℚ) : ℚ × ℚ :=
  let mid := s.1 + tdHalf (s.2 - s.1)
  if arc_err sunLon sun0 mid > 0 then (mid, s.2) else (s.1, mid)

/-- Source `n` iterations of the loop. -/
def bisectSteps (sunLon : ℚ → ℚ) (sun0 : ℚ) : ℕ → ℚ × ℚ → ℚ × ℚ
  | 0, s => s
  | n + 1, s => bisectSteps sunLon sun0 n (bisectStep sunLon sun0 s)

/-- Source `design_time_from_solar_arc`: 50 bisection iterations on
`[birth - 150 d, birth + 150 d]`, returning `lo`. -/
def design_time_from_solar_arc (sunLon : ℚ → ℚ) (birth : ℚ) : ℚ :=
  let sun0 := sunLon (secTrunc birth)
  (bisectSteps sunLon sun0 50 (birth - 150, birth + 150)).1

/-- Source `design_time_from_days`: `birth - 88` days. -/
def design_time_from_days (birth : ℚ) : ℚ := birth - 88

/-- Modelled from the spec: the ephemeris provider is an external
collaborator ("Ephemeris provider: given a UTC instant and a body
identifier, returns that body's apparent ecliptic longitude").  This
instance realizes the monotonicity assumption of the claim — the sun's
longitude advances at exactly 1°/day — with natal instant at day 1000
and natal sun longitude 10°. -/
def linSun (t : ℚ) : ℚ := pymod (10 + (t - 1000)) 360


/-! ## Helper facts about sorting and emptiness -/

theorem insertSorted_ne_nil (x : String) (l : List String) :
    insertSorted x l ≠ [] := by
  cases l with
  | nil => simp [insertSorted]
  | cons y ys =>
    unfold insertSorted
    by_cases h : strLe x y = true
    · rw [if_pos h]; simp
    · rw [if_neg h]; simp

theorem sortStrings_ne_nil {l : List String} (h : l ≠ []) :
    sortStrings l ≠ [] := by
  cases l with
  | nil => exact absurd rfl h
  | cons x xs => exact insertSorted_ne_nil x (sortStrings xs)

/-- A snapshot with a single body carrying a given gate. -/
def oneGateSnap (g : ℕ) : Snapshot := [("sun", ⟨0, "Aries", 0, g, 1⟩)]

/-- A two-body snapshot activating gates 4 and 63 (channel "4-63",
centers Ajna and Head). -/
def ajnaHeadSnap : Snapshot :=
  [("sun", ⟨0, "Aries", 0, 4, 1⟩), ("moon", ⟨0, "Aries", 0, 63, 1⟩)]

/-! ## Claim C4: the channel table -/

/-- C4 (counterexample): the static channel table does not have 35
entries — it has 36. -/
theorem channel_table_not_35 : CHANNELS.length ≠ 35 := by decide

/-- C4 (amended): the static channel table contains exactly 36 entries,
each consisting of an unordered pair of two distinct gate numbers (in
`[1, 64]`) and a set of exactly 2 distinct center names. -/
theorem channel_table_36_wellformed :
    CHANNELS.length = 36 ∧
    ∀ ch ∈ CHANNELS, ch.gates.length = 2 ∧ ch.gates.Nodup ∧
      (∀ g ∈ ch.gates, 1 ≤ g ∧ g ≤ 64) ∧
      ch.centers.length = 2 ∧ ch.centers.Nodup := by decide

/-! ## Claim C3: the no-channel (Reflector) scenario -/

/-- C3 (counterexample): with only gate 1 active no channel is defined,
and `compute_hd` then reports authority `"Lunar"`, not
`"Environmental"` as the claim states. -/
theorem reflector_scenario_authority_lunar :
    definedChannels (oneGateSnap 1) (oneGateSnap 1) = [] ∧
    (compute_hd (oneGateSnap 1) (oneGateSnap 1)).authority = "Lunar" ∧
    (compute_hd (oneGateSnap 1) (oneGateSnap 1)).authority ≠ "Environmental" := by
  decide

/-- C3 (amended): for every pair of snapshots whose active-gate union
defines no channel at all, `compute_hd` returns type Reflector, the
lunar-cycle wait strategy, authority `"Lunar"`, and an empty list of
defined centers. -/
theorem no_channel_reflector_lunar (natal design : Snapshot)
    (h : ∀ ch ∈ CHANNELS, ¬ channelDefined natal design ch) :
    (compute_hd natal design).hdType = "Reflector" ∧
    (compute_hd natal design).strategy = "Wait a lunar cycle (~28 days)" ∧
    (compute_hd natal design).authority = "Lunar" ∧
    (compute_hd natal design).definedCenters = [] := by
  have hf : CHANNELS.filter
      (fun ch => decide (channelDefined natal design ch)) = [] := by
    apply List.filter_eq_nil_iff.mpr
    intro ch hch
    simpa using h ch hch
  have hflat : definedCentersFlat natal design = [] := by
    unfold definedCentersFlat
    rw [hf]
    rfl
  have hcl : centersList natal design = [] := by
    unfold centersList
    rw [hflat]
    rfl
  unfold compute_hd
  rw [hcl]
  simp

/-- C3 (witness for the amended theorem): the single-gate scenario. -/
theorem no_channel_reflector_lunar_witness :
    (compute_hd (oneGateSnap 1) (oneGateSnap 1)).hdType = "Reflector" ∧
    (compute_hd (oneGateSnap 1) (oneGateSnap 1)).strategy =
      "Wait a lunar cycle (~28 days)" ∧
    (compute_hd (oneGateSnap 1) (oneGateSnap 1)).authority = "Lunar" ∧
    (compute_hd (oneGateSnap 1) (oneGateSnap 1)).definedCenters = [] :=
  no_channel_reflector_lunar (oneGateSnap 1) (oneGateSnap 1) (by decide)

/-! ## Claim C7: the authority priority chain -/

/-- The spec's authority rule, written from its words: "first matching
rule in priority order — Solar-Plexus defined → Emotional; else Sacral
defined → Sacral; else Spleen defined → Splenic; else Heart defined →
Ego; else (G AND Throat both defined) → Self-Projected; else →
Environmental".  `definedC` answers whether a center is defined. -/
def authoritySpec (definedC : List String) : String :=
  if "Solar Plexus" ∈ definedC then "Emotional"
  else if "Sacral" ∈ definedC then "Sacral"
  else if "Spleen" ∈ definedC then "Splenic"
  else if "Heart" ∈ definedC then "Ego"
  else if "G" ∈ definedC ∧ "Throat" ∈ definedC then "Self-Projected"
  else "Environmental"

/-- C7: whenever the active-gate union defines at least one channel, the
authority reported by `compute_hd` is exactly the spec's strict priority
chain evaluated on the defined centers. -/
theorem authority_priority_chain (natal design : Snapshot)
    (h : ∃ ch ∈ CHANNELS, channelDefined natal design ch) :
    (compute_hd natal design).authority =
      authoritySpec (definedCentersFlat natal design) := by
  obtain ⟨ch, hch, hdef⟩ := h
  have hchf : ch ∈ CHANNELS.filter
      (fun ch => decide (channelDefined natal design ch)) :=
    List.mem_filter.mpr ⟨hch, by simpa using hdef⟩
  have hcne : ch.centers ≠ [] := by
    revert hch
    have : ∀ ch ∈ CHANNELS, ch.centers ≠ [] := by decide
    exact this ch
  obtain ⟨c, hc⟩ := List.exists_mem_of_ne_nil ch.centers hcne
  have hcflat : c ∈ definedCentersFlat natal design := by
    unfold definedCentersFlat
    exact List.mem_flatMap.mpr ⟨ch, hchf, hc⟩
  have hflatne : definedCentersFlat natal design ≠ [] :=
    List.ne_nil_of_mem hcflat
  have hcl : centersList natal design ≠ [] := by
    unfold centersList
    exact sortStrings_ne_nil (by simpa [List.dedup_eq_nil] using hflatne)
  unfold compute_hd
  rw [if_neg hcl]
  rfl

/-- C7 (witness): gates 4 and 63 define channel "4-63"
(Ajna–Head); the chain then falls through to Environmental. -/
theorem authority_priority_chain_witness :
    (compute_hd ajnaHeadSnap ajnaHeadSnap).authority =
      authoritySpec (definedCentersFlat ajnaHeadSnap ajnaHeadSnap) :=
  authority_priority_chain ajnaHeadSnap ajnaHeadSnap
    ⟨⟨"4-63", [4, 63], ["Ajna", "Head"]⟩, by decide, by decide⟩


/-! ## Claim C9: periodicity of the classifier -/

theorem signIdx_pymod (x : ℚ) : signIdx (pymod x 360) = signIdx x := by
  unfold signIdx
  rw [normLon_pymod]

theorem degInSign_pymod (x : ℚ) : degInSign (pymod x 360) = degInSign x := by
  unfold degInSign
  rw [signIdx_pymod, normLon_pymod]

/-- C9: the classifier is a total function of the longitude and is
periodic with period 360: classifying `x` and classifying `x % 360`
(Python semantics of `%`) give identical results, because the classifier
first normalizes its input with `lon_deg % 360.0` itself. -/
theorem gate_line_periodic (x : ℚ) :
    gate_line_from_longitude x = gate_line_from_longitude (pymod x 360) := by
  simp only [gate_line_from_longitude, signIdx_pymod, degInSign_pymod,
    normLon_pymod]

/-! ## Claim C10: the scan fallback is unreachable in exact arithmetic -/

/-- C10: for every longitude whose degree-in-sign lies in `[0, 30)`, the
linear scan over that sign's segment list finds a matching segment, so
the `target is None` fallback branch is unreachable under that
precondition. -/
theorem scan_never_falls_back (lon : ℚ) (h0 : 0 ≤ degInSign lon)
    (h1 : degInSign lon < 30) :
    (findSeg (degInSign lon) (intervalsOf (signName (signIdx lon)))).isSome
      = true :=
  findSeg_isSome (intervals_chain _ (signIdx_le lon)) h0 h1

/-- C10 (witness): longitude 1/2. -/
theorem scan_never_falls_back_witness :
    (findSeg (degInSign (1/2)) (intervalsOf (signName (signIdx (1/2))))).isSome
      = true :=
  scan_never_falls_back (1/2)
    (by norm_num [degInSign, signIdx, normLon, pymod])
    (by norm_num [degInSign, signIdx, normLon, pymod])

/-! ## Claim C5: classifier ranges and the tiling of the circle -/

/-- C5: for every longitude in `[0, 360)` the classifier returns a gate
in `[1, 64]` and a line in `[1, 6]`; within each sign the segments are
contiguous, non-overlapping, ordered (`chainQ 0 30`) and their spans sum
to exactly 30 degrees; and the 12 signs together tile the full 360-degree
circle. -/
theorem classifier_ranges_and_tiling :
    (∀ lon : ℚ, 0 ≤ lon → lon < 360 →
      1 ≤ (gate_line_from_longitude lon).1 ∧
      (gate_line_from_longitude lon).1 ≤ 64 ∧
      1 ≤ (gate_line_from_longitude lon).2.1 ∧
      (gate_line_from_longitude lon).2.1 ≤ 6) ∧
    (∀ k : ℕ, k ≤ 11 → chainQ 0 30 (intervalsOf (signName k)) ∧
      ((intervalsOf (signName k)).map (fun s => s.stop - s.start)).sum = 30) ∧
    (SIGN_INTERVALS.map
      (fun p => (p.2.map (fun s => s.stop - s.start)).sum)).sum = 360 := by
  refine ⟨?_, ?_, ?_⟩
  · intro lon _ _
    have hk := signIdx_le lon
    have hne := intervals_ne (signIdx lon) hk
    have hmem := targetSeg_mem (intervalsOf (signName (signIdx lon)))
      (degInSign lon) hne
    have hg := intervals_gates (signIdx lon) hk _ hmem
    refine ⟨?_, ?_, ?_, ?_⟩
    · simpa only [gate_line_from_longitude] using hg.1
    · simpa only [gate_line_from_longitude] using hg.2
    · simp only [gate_line_from_longitude]
      exact le_max_left _ _
    · simp only [gate_line_from_longitude]
      exact max_le (by norm_num) (min_le_left _ _)
  · intro k hk
    refine ⟨intervals_chain k hk, ?_⟩
    interval_cases k
    · rw [signName_0, intervalsOf_aries]; exact spans_aries
    · rw [signName_1, intervalsOf_taurus]; exact spans_taurus
    · rw [signName_2, intervalsOf_gemini]; exact spans_gemini
    · rw [signName_3, intervalsOf_cancer]; exact spans_cancer
    · rw [signName_4, intervalsOf_leo]; exact spans_leo
    · rw [signName_5, intervalsOf_virgo]; exact spans_virgo
    · rw [signName_6, intervalsOf_libra]; exact spans_libra
    · rw [signName_7, intervalsOf_scorpio]; exact spans_scorpio
    · rw [signName_8, intervalsOf_sagittarius]; exact spans_sagittarius
    · rw [signName_9, intervalsOf_capricorn]; exact spans_capricorn
    · rw [signName_10, intervalsOf_aquarius]; exact spans_aquarius
    · rw [signName_11, intervalsOf_pisces]; exact spans_pisces
  · simp only [SIGN_INTERVALS, List.map_cons, List.map_nil, List.sum_cons,
      List.sum_nil, spans_aries, spans_taurus, spans_gemini, spans_cancer,
      spans_leo, spans_virgo, spans_libra, spans_scorpio, spans_sagittarius,
      spans_capricorn, spans_aquarius, spans_pisces]
    norm_num

/-- C5 (witness): the range part at longitude 100 and the per-sign part
at sign index 3. -/
theorem classifier_ranges_and_tiling_witness :
    (1 ≤ (gate_line_from_longitude 100).1 ∧
     (gate_line_from_longitude 100).1 ≤ 64 ∧
     1 ≤ (gate_line_from_longitude 100).2.1 ∧
     (gate_line_from_longitude 100).2.1 ≤ 6) ∧
    (chainQ 0 30 (intervalsOf (signName 3)) ∧
     ((intervalsOf (signName 3)).map (fun s => s.stop - s.start)).sum = 30) :=
  ⟨classifier_ranges_and_tiling.1 100 (by norm_num) (by norm_num),
   classifier_ranges_and_tiling.2.1 3 (by norm_num)⟩

/-! ## Claim C6: line continuity across sign boundaries -/

/-- A longitude just below the sign seam at `30 * s` degrees. -/
def belowBoundary (s : ℕ) : ℚ := 30 * s - 1/1000

/-- A longitude just above the sign seam at `30 * s` degrees. -/
def aboveBoundary (s : ℕ) : ℚ := 30 * s + 1/1000

/-- Last segment of the sign with index `k`. -/
def lastSegOf (k : ℕ) : Seg := (intervalsOf (signName k)).getLastD ⟨0, 0, 0⟩

/-- First segment of the sign with index `k`. -/
def headSegOf (k : ℕ) : Seg := (intervalsOf (signName k)).headD ⟨0, 0, 0⟩

theorem classify_below_0 :
    gate_line_from_longitude (belowBoundary 0) = (25, 2, "Pisces", 29999/1000) := by
  have harg : belowBoundary 0 = (-1/1000 : ℚ) := by norm_num [belowBoundary]
  have h1 : signIdx (-1/1000 : ℚ) = 11 := by
    unfold signIdx normLon pymod; norm_num <;> decide
  have h2 : degInSign (-1/1000 : ℚ) = 29999/1000 := by
    unfold degInSign; rw [h1]; unfold normLon pymod; norm_num
  rw [harg]
  simp only [gate_line_from_longitude, h1, h2, prevIdx_11, signName_11,
    signName_10, intervalsOf_pisces, intervalsOf_aquarius]
  norm_num [piscesSegs, aquariusSegs, targetSeg, findSeg, dms_to_deg, isclose,
    normLon, pymod, LINE_SPAN, GATE_SPAN]

theorem classify_above_0 :
    gate_line_from_longitude (aboveBoundary 0) = (25, 2, "Aries", 1/1000) := by
  have harg : aboveBoundary 0 = (1/1000 : ℚ) := by norm_num [aboveBoundary]
  have h1 : signIdx (1/1000 : ℚ) = 0 := by
    unfold signIdx normLon pymod; norm_num <;> decide
  have h2 : degInSign (1/1000 : ℚ) = 1/1000 := by
    unfold degInSign; rw [h1]; unfold normLon pymod; norm_num
  rw [harg]
  simp only [gate_line_from_longitude, h1, h2, prevIdx_0, signName_0,
    signName_11, intervalsOf_aries, intervalsOf_pisces]
  norm_num [ariesSegs, piscesSegs, targetSeg, findSeg, dms_to_deg, isclose,
    normLon, pymod, LINE_SPAN, GATE_SPAN]

theorem classify_below_1 :
    gate_line_from_longitude (belowBoundary 1) = (3, 4, "Aries", 29999/1000) := by
  have harg : belowBoundary 1 = (29999/1000 : ℚ) := by norm_num [belowBoundary]
  have h1 : signIdx (29999/1000 : ℚ) = 0 := by
    unfold signIdx normLon pymod; norm_num <;> decide
  have h2 : degInSign (29999/1000 : ℚ) = 29999/1000 := by
    unfold degInSign; rw [h1]; unfold normLon pymod; norm_num
  rw [harg]
  simp only [gate_line_from_longitude, h1, h2, prevIdx_0, signName_0,
    signName_11, intervalsOf_aries, intervalsOf_pisces]
  norm_num [ariesSegs, piscesSegs, targetSeg, findSeg, dms_to_deg, isclose,
    normLon, pymod, LINE_SPAN, GATE_SPAN]

theorem classify_above_1 :
    gate_line_from_longitude (aboveBoundary 1) = (3, 4, "Taurus", 1/1000) := by
  have harg : aboveBoundary 1 = (30001/1000 : ℚ) := by norm_num [aboveBoundary]
  have h1 : signIdx (30001/1000 : ℚ) = 1 := by
    unfold signIdx normLon pymod; norm_num <;> decide
  have h2 : degInSign (30001/1000 : ℚ) = 1/1000 := by
    unfold degInSign; rw [h1]; unfold normLon pymod; norm_num
  rw [harg]
  simp only [gate_line_from_longitude, h1, h2, prevIdx_1, signName_1,
    signName_0, intervalsOf_taurus, intervalsOf_aries]
  norm_num [taurusSegs, ariesSegs, targetSeg, findSeg, dms_to_deg, isclose,
    normLon, pymod, LINE_SPAN, GATE_SPAN]

theorem classify_below_2 :
    gate_line_from_longitude (belowBoundary 2) = (8, 6, "Taurus", 29999/1000) := by
  have harg : belowBoundary 2 = (59999/1000 : ℚ) := by norm_num [belowBoundary]
  have h1 : signIdx (59999/1000 : ℚ) = 1 := by
    unfold signIdx normLon pymod; norm_num <;> decide
  have h2 : degInSign (59999/1000 : ℚ) = 29999/1000 := by
    unfold degInSign; rw [h1]; unfold normLon pymod; norm_num
  rw [harg]
  simp only [gate_line_from_longitude, h1, h2, prevIdx_1, signName_1,
    signName_0, intervalsOf_taurus, intervalsOf_aries]
  norm_num [taurusSegs, ariesSegs, targetSeg, findSeg, dms_to_deg, isclose,
    normLon, pymod, LINE_SPAN, GATE_SPAN]

theorem classify_above_2 :
    gate_line_from_longitude (aboveBoundary 2) = (8, 6, "Gemini", 1/1000) := by
  have harg : aboveBoundary 2 = (60001/1000 : ℚ) := by norm_num [aboveBoundary]
  have h1 : signIdx (60001/1000 : ℚ) = 2 := by
    unfold signIdx normLon pymod; norm_num <;> decide
  have h2 : degInSign (60001/1000 : ℚ) = 1/1000 := by
    unfold degInSign; rw [h1]; unfold normLon pymod; norm_num
  rw [harg]
  simp only [gate_line_from_longitude, h1, h2, prevIdx_2, signName_2,
    signName_1, intervalsOf_gemini, intervalsOf_taurus]
  norm_num [geminiSegs, taurusSegs, targetSeg, findSeg, dms_to_deg, isclose,
    normLon, pymod, LINE_SPAN, GATE_SPAN]

theorem classify_below_3 :
    gate_line_from_longitude (belowBoundary 3) = (15, 2, "Gemini", 29999/1000) := by
  have harg : belowBoundary 3 = (89999/1000 : ℚ) := by norm_num [belowBoundary]
  have h1 : signIdx (89999/1000 : ℚ) = 2 := by
    unfold signIdx normLon pymod; norm_num <;> decide
  have h2 : degInSign (89999/1000 : ℚ) = 29999/1000 := by
    unfold degInSign; rw [h1]; unfold normLon pymod; norm_num
  rw [harg]
  simp only [gate_line_from_longitude, h1, h2, prevIdx_2, signName_2,
    signName_1, intervalsOf_gemini, intervalsOf_taurus]
  norm_num [geminiSegs, taurusSegs, targetSeg, findSeg, dms_to_deg, isclose,
    normLon, pymod, LINE_SPAN, GATE_SPAN]

theorem classify_above_3 :
    gate_line_from_longitude (aboveBoundary 3) = (15, 2, "Cancer", 1/1000) := by
  have harg : aboveBoundary 3 = (90001/1000 : ℚ) := by norm_num [aboveBoundary]
  have h1 : signIdx (90001/1000 : ℚ) = 3 := by
    unfold signIdx normLon pymod; norm_num <;> decide
  have h2 : degInSign (90001/1000 : ℚ) = 1/1000 := by
    unfold degInSign; rw [h1]; unfold normLon pymod; norm_num
  rw [harg]
  simp only [gate_line_from_longitude, h1, h2, prevIdx_3, signName_3,
    signName_2, intervalsOf_cancer, intervalsOf_gemini]
  norm_num [cancerSegs, geminiSegs, targetSeg, findSeg, dms_to_deg, isclose,
    normLon, pymod, LINE_SPAN, GATE_SPAN]

theorem classify_below_4 :
    gate_line_from_longitude (belowBoundary 4) = (56, 4, "Cancer", 29999/1000) := by
  have harg : belowBoundary 4 = (119999/1000 : ℚ) := by norm_num [belowBoundary]
  have h1 : signIdx (119999/1000 : ℚ) = 3 := by
    unfold signIdx normLon pymod; norm_num <;> decide
  have h2 : degInSign (119999/1000 : ℚ) = 29999/1000 := by
    unfold degInSign; rw [h1]; unfold normLon pymod; norm_num
  rw [harg]
  simp only [gate_line_from_longitude, h1, h2, prevIdx_3, signName_3,
    signName_2, intervalsOf_cancer, intervalsOf_gemini]
  norm_num [cancerSegs, geminiSegs, targetSeg, findSeg, dms_to_deg, isclose,
    normLon, pymod, LINE_SPAN, GATE_SPAN]

theorem classify_above_4 :
    gate_line_from_longitude (aboveBoundary 4) = (56, 4, "Leo", 1/1000) := by
  have harg : aboveBoundary 4 = (120001/1000 : ℚ) := by norm_num [aboveBoundary]
  have h1 : signIdx (120001/1000 : ℚ) = 4 := by
    unfold signIdx normLon pymod; norm_num <;> decide
  have h2 : degInSign (120001/1000 : ℚ) = 1/1000 := by
    unfold degInSign; rw [h1]; unfold normLon pymod; norm_num
  rw [harg]
  simp only [gate_line_from_longitude, h1, h2, prevIdx_4, signName_4,
    signName_3, intervalsOf_leo, intervalsOf_cancer]
  norm_num [leoSegs, cancerSegs, targetSeg, findSeg, dms_to_deg, isclose,
    normLon, pymod, LINE_SPAN, GATE_SPAN]

theorem classify_below_5 :
    gate_line_from_longitude (belowBoundary 5) = (29, 6, "Leo", 29999/1000) := by
  have harg : belowBoundary 5 = (149999/1000 : ℚ) := by norm_num [belowBoundary]
  have h1 : signIdx (149999/1000 : ℚ) = 4 := by
    unfold signIdx normLon pymod; norm_num <;> decide
  have h2 : degInSign (149999/1000 : ℚ) = 29999/1000 := by
    unfold degInSign; rw [h1]; unfold normLon pymod; norm_num
  rw [harg]
  simp only [gate_line_from_longitude, h1, h2, prevIdx_4, signName_4,
    signName_3, intervalsOf_leo, intervalsOf_cancer]
  norm_num [leoSegs, cancerSegs, targetSeg, findSeg, dms_to_deg, isclose,
    normLon, pymod, LINE_SPAN, GATE_SPAN]

theorem classify_above_5 :
    gate_line_from_longitude (aboveBoundary 5) = (29, 6, "Virgo", 1/1000) := by
  have harg : aboveBoundary 5 = (150001/1000 : ℚ) := by norm_num [aboveBoundary]
  have h1 : signIdx (150001/1000 : ℚ) = 5 := by
    unfold signIdx normLon pymod; norm_num <;> decide
  have h2 : degInSign (150001/1000 : ℚ) = 1/1000 := by
    unfold degInSign; rw [h1]; unfold normLon pymod; norm_num
  rw [harg]
  simp only [gate_line_from_longitude, h1, h2, prevIdx_5, signName_5,
    signName_4, intervalsOf_virgo, intervalsOf_leo]
  norm_num [virgoSegs, leoSegs, targetSeg, findSeg, dms_to_deg, isclose,
    normLon, pymod, LINE_SPAN, GATE_SPAN]

theorem classify_below_6 :
    gate_line_from_longitude (belowBoundary 6) = (46, 2, "Virgo", 29999/1000) := by
  have harg : belowBoundary 6 = (179999/1000 : ℚ) := by norm_num [belowBoundary]
  have h1 : signIdx (179999/1000 : ℚ) = 5 := by
    unfold signIdx normLon pymod; norm_num <;> decide
  have h2 : degInSign (179999/1000 : ℚ) = 29999/1000 := by
    unfold degInSign; rw [h1]; unfold normLon pymod; norm_num
  rw [harg]
  simp only [gate_line_from_longitude, h1, h2, prevIdx_5, signName_5,
    signName_4, intervalsOf_virgo, intervalsOf_leo]
  norm_num [virgoSegs, leoSegs, targetSeg, findSeg, dms_to_deg, isclose,
    normLon, pymod, LINE_SPAN, GATE_SPAN]

theorem classify_above_6 :
    gate_line_from_longitude (aboveBoundary 6) = (46, 2, "Libra", 1/1000) := by
  have harg : aboveBoundary 6 = (180001/1000 : ℚ) := by norm_num [aboveBoundary]
  have h1 : signIdx (180001/1000 : ℚ) = 6 := by
    unfold signIdx normLon pymod; norm_num <;> decide
  have h2 : degInSign (180001/1000 : ℚ) = 1/1000 := by
    unfold degInSign; rw [h1]; unfold normLon pymod; norm_num
  rw [harg]
  simp only [gate_line_from_longitude, h1, h2, prevIdx_6, signName_6,
    signName_5, intervalsOf_libra, intervalsOf_virgo]
  norm_num [libraSegs, virgoSegs, targetSeg, findSeg, dms_to_deg, isclose,
    normLon, pymod, LINE_SPAN, GATE_SPAN]

theorem classify_below_7 :
    gate_line_from_longitude (belowBoundary 7) = (50, 4, "Libra", 29999/1000) := by
  have harg : belowBoundary 7 = (209999/1000 : ℚ) := by norm_num [belowBoundary]
  have h1 : signIdx (209999/1000 : ℚ) = 6 := by
    unfold signIdx normLon pymod; norm_num <;> decide
  have h2 : degInSign (209999/1000 : ℚ) = 29999/1000 := by
    unfold degInSign; rw [h1]; unfold normLon pymod; norm_num
  rw [harg]
  simp only [gate_line_from_longitude, h1, h2, prevIdx_6, signName_6,
    signName_5, intervalsOf_libra, intervalsOf_virgo]
  norm_num [libraSegs, virgoSegs, targetSeg, findSeg, dms_to_deg, isclose,
    normLon, pymod, LINE_SPAN, GATE_SPAN]

theorem classify_above_7 :
    gate_line_from_longitude (aboveBoundary 7) = (50, 4, "Scorpio", 1/1000) := by
  have harg : aboveBoundary 7 = (210001/1000 : ℚ) := by norm_num [aboveBoundary]
  have h1 : signIdx (210001/1000 : ℚ) = 7 := by
    unfold signIdx normLon pymod; norm_num <;> decide
  have h2 : degInSign (210001/1000 : ℚ) = 1/1000 := by
    unfold degInSign; rw [h1]; unfold normLon pymod; norm_num
  rw [harg]
  simp only [gate_line_from_longitude, h1, h2, prevIdx_7, signName_7,
    signName_6, intervalsOf_scorpio, intervalsOf_libra]
  norm_num [scorpioSegs, libraSegs, targetSeg, findSeg, dms_to_deg, isclose,
    normLon, pymod, LINE_SPAN, GATE_SPAN]

theorem classify_below_8 :
    gate_line_from_longitude (belowBoundary 8) = (14, 6, "Scorpio", 29999/1000) := by
  have harg : belowBoundary 8 = (239999/1000 : ℚ) := by norm_num [belowBoundary]
  have h1 : signIdx (239999/1000 : ℚ) = 7 := by
    unfold signIdx normLon pymod; norm_num <;> decide
  have h2 : degInSign (239999/1000 : ℚ) = 29999/1000 := by
    unfold degInSign; rw [h1]; unfold normLon pymod; norm_num
  rw [harg]
  simp only [gate_line_from_longitude, h1, h2, prevIdx_7, signName_7,
    signName_6, intervalsOf_scorpio, intervalsOf_libra]
  norm_num [scorpioSegs, libraSegs, targetSeg, findSeg, dms_to_deg, isclose,
    normLon, pymod, LINE_SPAN, GATE_SPAN]

theorem classify_above_8 :
    gate_line_from_longitude (aboveBoundary 8) = (14, 6, "Sagittarius", 1/1000) := by
  have harg : aboveBoundary 8 = (240001/1000 : ℚ) := by norm_num [aboveBoundary]
  have h1 : signIdx (240001/1000 : ℚ) = 8 := by
    unfold signIdx normLon pymod; norm_num <;> decide
  have h2 : degInSign (240001/1000 : ℚ) = 1/1000 := by
    unfold degInSign; rw [h1]; unfold normLon pymod; norm_num
  rw [harg]
  simp only [gate_line_from_longitude, h1, h2, prevIdx_8, signName_8,
    signName_7, intervalsOf_sagittarius, intervalsOf_scorpio]
  norm_num [sagittariusSegs, scorpioSegs, targetSeg, findSeg, dms_to_deg, isclose,
    normLon, pymod, LINE_SPAN, GATE_SPAN]

theorem classify_below_9 :
    gate_line_from_longitude (belowBoundary 9) = (10, 2, "Sagittarius", 29999/1000) := by
  have harg : belowBoundary 9 = (269999/1000 : ℚ) := by norm_num [belowBoundary]
  have h1 : signIdx (269999/1000 : ℚ) = 8 := by
    unfold signIdx normLon pymod; norm_num <;> decide
  have h2 : degInSign (269999/1000 : ℚ) = 29999/1000 := by
    unfold degInSign; rw [h1]; unfold normLon pymod; norm_num
  rw [harg]
  simp only [gate_line_from_longitude, h1, h2, prevIdx_8, signName_8,
    signName_7, intervalsOf_sagittarius, intervalsOf_scorpio]
  norm_num [sagittariusSegs, scorpioSegs, targetSeg, findSeg, dms_to_deg, isclose,
    normLon, pymod, LINE_SPAN, GATE_SPAN]

theorem classify_above_9 :
    gate_line_from_longitude (aboveBoundary 9) = (10, 2, "Capricorn", 1/1000) := by
  have harg : aboveBoundary 9 = (270001/1000 : ℚ) := by norm_num [aboveBoundary]
  have h1 : signIdx (270001/1000 : ℚ) = 9 := by
    unfold signIdx normLon pymod; norm_num <;> decide
  have h2 : degInSign (270001/1000 : ℚ) = 1/1000 := by
    unfold degInSign; rw [h1]; unfold normLon pymod; norm_num
  rw [harg]
  simp only [gate_line_from_longitude, h1, h2, prevIdx_9, signName_9,
    signName_8, intervalsOf_capricorn, intervalsOf_sagittarius]
  norm_num [capricornSegs, sagittariusSegs, targetSeg, findSeg, dms_to_deg, isclose,
    normLon, pymod, LINE_SPAN, GATE_SPAN]

theorem classify_below_10 :
    gate_line_from_longitude (belowBoundary 10) = (60, 4, "Capricorn", 29999/1000) := by
  have harg : belowBoundary 10 = (299999/1000 : ℚ) := by norm_num [belowBoundary]
  have h1 : signIdx (299999/1000 : ℚ) = 9 := by
    unfold signIdx normLon pymod; norm_num <;> decide
  have h2 : degInSign (299999/1000 : ℚ) = 29999/1000 := by
    unfold degInSign; rw [h1]; unfold normLon pymod; norm_num
  rw [harg]
  simp only [gate_line_from_longitude, h1, h2, prevIdx_9, signName_9,
    signName_8, intervalsOf_capricorn, intervalsOf_sagittarius]
  norm_num [capricornSegs, sagittariusSegs, targetSeg, findSeg, dms_to_deg, isclose,
    normLon, pymod, LINE_SPAN, GATE_SPAN]

theorem classify_above_10 :
    gate_line_from_longitude (aboveBoundary 10) = (60, 4, "Aquarius", 1/1000) := by
  have harg : aboveBoundary 10 = (300001/1000 : ℚ) := by norm_num [aboveBoundary]
  have h1 : signIdx (300001/1000 : ℚ) = 10 := by
    unfold signIdx normLon pymod; norm_num <;> decide
  have h2 : degInSign (300001/1000 : ℚ) = 1/1000 := by
    unfold degInSign; rw [h1]; unfold normLon pymod; norm_num
  rw [harg]
  simp only [gate_line_from_longitude, h1, h2, prevIdx_10, signName_10,
    signName_9, intervalsOf_aquarius, intervalsOf_capricorn]
  norm_num [aquariusSegs, capricornSegs, targetSeg, findSeg, dms_to_deg, isclose,
    normLon, pymod, LINE_SPAN, GATE_SPAN]

theorem classify_below_11 :
    gate_line_from_longitude (belowBoundary 11) = (30, 6, "Aquarius", 29999/1000) := by
  have harg : belowBoundary 11 = (329999/1000 : ℚ) := by norm_num [belowBoundary]
  have h1 : signIdx (329999/1000 : ℚ) = 10 := by
    unfold signIdx normLon pymod; norm_num <;> decide
  have h2 : degInSign (329999/1000 : ℚ) = 29999/1000 := by
    unfold degInSign; rw [h1]; unfold normLon pymod; norm_num
  rw [harg]
  simp only [gate_line_from_longitude, h1, h2, prevIdx_10, signName_10,
    signName_9, intervalsOf_aquarius, intervalsOf_capricorn]
  norm_num [aquariusSegs, capricornSegs, targetSeg, findSeg, dms_to_deg, isclose,
    normLon, pymod, LINE_SPAN, GATE_SPAN]

theorem classify_above_11 :
    gate_line_from_longitude (aboveBoundary 11) = (30, 6, "Pisces", 1/1000) := by
  have harg : aboveBoundary 11 = (330001/1000 : ℚ) := by norm_num [aboveBoundary]
  have h1 : signIdx (330001/1000 : ℚ) = 11 := by
    unfold signIdx normLon pymod; norm_num <;> decide
  have h2 : degInSign (330001/1000 : ℚ) = 1/1000 := by
    unfold degInSign; rw [h1]; unfold normLon pymod; norm_num
  rw [harg]
  simp only [gate_line_from_longitude, h1, h2, prevIdx_11, signName_11,
    signName_10, intervalsOf_pisces, intervalsOf_aquarius]
  norm_num [piscesSegs, aquariusSegs, targetSeg, findSeg, dms_to_deg, isclose,
    normLon, pymod, LINE_SPAN, GATE_SPAN]

/-- C6: for every sign seam whose previous sign's last segment ends at
exactly 30 degrees and whose gate continues as the first segment of the
next sign, classifying a longitude just below and just above the seam
yields the same gate, with adjacent, monotonically non-decreasing line
numbers that never reset to 1 in the middle of the gate. -/
theorem boundary_line_continuity (s : ℕ) (hs : s ≤ 11)
    (hcross : (lastSegOf (prevIdx s)).stop = 30 ∧
      (headSegOf s).gate = (lastSegOf (prevIdx s)).gate) :
    (gate_line_from_longitude (belowBoundary s)).1 =
      (gate_line_from_longitude (aboveBoundary s)).1 ∧
    (gate_line_from_longitude (belowBoundary s)).2.1 ≤
      (gate_line_from_longitude (aboveBoundary s)).2.1 ∧
    (gate_line_from_longitude (aboveBoundary s)).2.1 ≤
      (gate_line_from_longitude (belowBoundary s)).2.1 + 1 ∧
    1 < (gate_line_from_longitude (aboveBoundary s)).2.1 := by
  interval_cases s
  · rw [classify_below_0, classify_above_0]; norm_num
  · rw [classify_below_1, classify_above_1]; norm_num
  · rw [classify_below_2, classify_above_2]; norm_num
  · rw [classify_below_3, classify_above_3]; norm_num
  · rw [classify_below_4, classify_above_4]; norm_num
  · rw [classify_below_5, classify_above_5]; norm_num
  · rw [classify_below_6, classify_above_6]; norm_num
  · rw [classify_below_7, classify_above_7]; norm_num
  · rw [classify_below_8, classify_above_8]; norm_num
  · rw [classify_below_9, classify_above_9]; norm_num
  · rw [classify_below_10, classify_above_10]; norm_num
  · rw [classify_below_11, classify_above_11]; norm_num

/-- C6 (witness): the Pisces–Aries seam (gate 25). -/
theorem boundary_line_continuity_witness :
    (gate_line_from_longitude (belowBoundary 0)).1 =
      (gate_line_from_longitude (aboveBoundary 0)).1 ∧
    (gate_line_from_longitude (belowBoundary 0)).2.1 ≤
      (gate_line_from_longitude (aboveBoundary 0)).2.1 ∧
    (gate_line_from_longitude (aboveBoundary 0)).2.1 ≤
      (gate_line_from_longitude (belowBoundary 0)).2.1 + 1 ∧
    1 < (gate_line_from_longitude (aboveBoundary 0)).2.1 :=
  boundary_line_continuity 0 (by norm_num)
    ⟨by
      rw [prevIdx_0]
      norm_num [lastSegOf, signName_11, intervalsOf_pisces, piscesSegs,
        dms_to_deg, List.getLastD],
     by rw [prevIdx_0]; rfl⟩


/-! ## Claim C2: longitude 0 (Aries 0 degrees) -/

/-- Full evaluation of the classifier at longitude 0: gate 25 starts at
Pisces 28°15′, so 0° lies 1.75° into gate 25, in its second line. -/
theorem classify_zero : gate_line_from_longitude 0 = (25, 2, "Aries", 0) := by
  have h1 : signIdx 0 = 0 := by
    unfold signIdx normLon pymod; norm_num
  have h2 : degInSign 0 = 0 := by
    unfold degInSign; rw [h1]; unfold normLon pymod; norm_num
  simp only [gate_line_from_longitude, h1, h2, prevIdx_0, signName_0,
    signName_11, intervalsOf_aries, intervalsOf_pisces]
  norm_num [ariesSegs, piscesSegs, targetSeg, findSeg, dms_to_deg, isclose,
    normLon, pymod, LINE_SPAN, GATE_SPAN]

/-- Full evaluation of the classifier at longitude 180: gate 46 starts at
Virgo 28°15′, so 180° lies 1.75° into gate 46, in its second line. -/
theorem classify_oneeighty :
    gate_line_from_longitude 180 = (46, 2, "Libra", 0) := by
  have h1 : signIdx 180 = 6 := by
    unfold signIdx normLon pymod; norm_num; decide
  have h2 : degInSign 180 = 0 := by
    unfold degInSign; rw [h1]; unfold normLon pymod; norm_num
  simp only [gate_line_from_longitude, h1, h2, prevIdx_6, signName_6,
    signName_5, intervalsOf_libra, intervalsOf_virgo]
  norm_num [libraSegs, virgoSegs, targetSeg, findSeg, dms_to_deg, isclose,
    normLon, pymod, LINE_SPAN, GATE_SPAN]

/-- C2 (counterexample): at longitude 0.0 the classifier returns gate 25
but line 2, not line 1: the boundary-crossing correction anchors gate 25
at Pisces 28°15′, and 0° is 1.75° = 1.866 line-widths past that start. -/
theorem classify_zero_line_not_one :
    (gate_line_from_longitude 0).1 = 25 ∧
    (gate_line_from_longitude 0).2.1 ≠ 1 := by
  rw [classify_zero]
  norm_num

/-- C2 (amended): the longitude classifier applied to input 0.0 degrees
(Aries 0°) returns gate 25 and line 2. -/
theorem classify_zero_gate_25_line_2 :
    (gate_line_from_longitude 0).1 = 25 ∧
    (gate_line_from_longitude 0).2.1 = 2 := by
  rw [classify_zero]
  exact ⟨rfl, rfl⟩


/-! ## Claim C8: all-or-nothing snapshots -/

theorem compute_bodies_over_none {p : String → Option ℚ} {l : List String}
    {b : String} (hb : b ∈ l) (hf : ecliptic_longitude_deg p b = none) :
    compute_bodies_over p l = none := by
  induction l with
  | nil => cases hb
  | cons x xs ih =>
    rcases List.mem_cons.mp hb with h | h
    · subst h
      simp only [compute_bodies_over, hf]
    · cases hx : ecliptic_longitude_deg p x with
      | none => simp only [compute_bodies_over, hx]
      | some lon =>
        simp only [compute_bodies_over, hx, ih h, Option.map_none']

theorem compute_bodies_over_mem {p : String → Option ℚ} {l : List String}
    {out : Snapshot} (h : compute_bodies_over p l = some out) :
    ∀ b ∈ l, ∃ r, (b, r) ∈ out := by
  induction l generalizing out with
  | nil => intro b hb; cases hb
  | cons x xs ih =>
    intro b hb
    unfold compute_bodies_over at h
    cases hx : ecliptic_longitude_deg p x with
    | none => simp [hx] at h
    | some lon =>
      simp only [hx] at h
      obtain ⟨out', hrest, hout⟩ := Option.map_eq_some'.mp h
      subst hout
      rcases List.mem_cons.mp hb with h1 | h1
      · exact ⟨mkBodyRec lon, h1 ▸ List.mem_cons_self _ _⟩
      · obtain ⟨r, hr⟩ := ih hrest b h1
        exact ⟨r, List.mem_cons_of_mem _ hr⟩

/-- C8: if the ephemeris fails for any tracked body at an instant, the
whole snapshot is `none` — no partial mapping is returned; and every
snapshot that succeeds contains every tracked body. -/
theorem snapshot_all_or_nothing (p : String → Option ℚ) :
    ((∃ b ∈ TRACKED, ecliptic_longitude_deg p b = none) →
      compute_bodies p = none) ∧
    (∀ out, compute_bodies p = some out →
      ∀ b ∈ TRACKED, ∃ r, (b, r) ∈ out) := by
  constructor
  · rintro ⟨b, hb, hf⟩
    exact compute_bodies_over_none hb hf
  · intro out h
    exact compute_bodies_over_mem h

theorem mkBodyRec_zero : mkBodyRec 0 = ⟨0, "Aries", 0, 25, 2⟩ := by
  simp only [mkBodyRec, classify_zero]
  norm_num [pyround6, roundHalfEven]

theorem mkBodyRec_oneeighty : mkBodyRec 180 = ⟨180, "Libra", 0, 46, 2⟩ := by
  simp only [mkBodyRec, classify_oneeighty]
  norm_num [pyround6, roundHalfEven]

/-- The snapshot produced when every provider query answers 0 degrees. -/
def allZeroSnap : Snapshot :=
  [("sun", ⟨0, "Aries", 0, 25, 2⟩), ("moon", ⟨0, "Aries", 0, 25, 2⟩),
   ("mercury", ⟨0, "Aries", 0, 25, 2⟩), ("venus", ⟨0, "Aries", 0, 25, 2⟩),
   ("mars", ⟨0, "Aries", 0, 25, 2⟩), ("jupiter", ⟨0, "Aries", 0, 25, 2⟩),
   ("saturn", ⟨0, "Aries", 0, 25, 2⟩), ("uranus", ⟨0, "Aries", 0, 25, 2⟩),
   ("neptune", ⟨0, "Aries", 0, 25, 2⟩), ("pluto", ⟨0, "Aries", 0, 25, 2⟩),
   ("earth", ⟨180, "Libra", 0, 46, 2⟩)]

theorem compute_bodies_allzero :
    compute_bodies (fun _ => some 0) = some allZeroSnap := by
  have hpm0 : pymod (0 : ℚ) 360 = 0 := pymod_eq_self le_rfl (by norm_num)
  have hpm180 : pymod (180 : ℚ) 360 = 180 :=
    pymod_eq_self (by norm_num) (by norm_num)
  simp [compute_bodies, TRACKED, compute_bodies_over,
    ecliptic_longitude_deg, BODY_KEYS, List.lookup, hpm0, hpm180,
    mkBodyRec_zero, mkBodyRec_oneeighty, allZeroSnap]

/-- C8 (witness): a provider that always fails yields no snapshot; a
provider that always answers 0 yields a snapshot containing every
tracked body. -/
theorem snapshot_all_or_nothing_witness :
    compute_bodies (fun _ => none) = none ∧
    (∀ b ∈ TRACKED, ∃ r, (b, r) ∈ allZeroSnap) :=
  ⟨(snapshot_all_or_nothing (fun _ => none)).1 ⟨"sun", by decide, rfl⟩,
   (snapshot_all_or_nothing (fun _ => some 0)).2 allZeroSnap
     compute_bodies_allzero⟩


/-! ## Claim C1: the solar-arc resolver -/

theorem roundHalfEven_bound (x : ℚ) : |(roundHalfEven x : ℚ) - x| ≤ 1/2 := by
  unfold roundHalfEven
  have h0 := Int.floor_le x
  have h1 := Int.lt_floor_add_one x
  by_cases hc1 : x - ⌊x⌋ < 1/2
  · rw [if_pos hc1, abs_le]
    constructor <;> push_cast at hc1 ⊢ <;> linarith
  · rw [if_neg hc1]
    by_cases hc2 : 1/2 < x - ⌊x⌋
    · rw [if_pos hc2, abs_le]
      constructor <;> push_cast at hc2 ⊢ <;> linarith
    · rw [if_neg hc2]
      push_cast at hc1 hc2
      by_cases hc3 : Even ⌊x⌋
      · rw [if_pos hc3, abs_le]
        constructor <;> push_cast <;> linarith
      · rw [if_neg hc3, abs_le]
        constructor <;> push_cast <;> linarith

theorem tdHalf_bounds (d : ℚ) :
    d/2 - 1/1000 ≤ tdHalf d ∧ tdHalf d ≤ d/2 + 1/1000 := by
  have h := roundHalfEven_bound (d * MICROS_PER_DAY / 2)
  rw [abs_le] at h
  unfold MICROS_PER_DAY at h
  unfold tdHalf MICROS_PER_DAY
  constructor
  · linarith [h.1]
  · linarith [h.2]

theorem secTrunc_bounds (t : ℚ) : t - 1/86400 < secTrunc t ∧ secTrunc t ≤ t := by
  have h0 := Int.floor_le (t * 86400)
  have h1 := Int.lt_floor_add_one (t * 86400)
  unfold secTrunc
  constructor
  · linarith
  · linarith

/-- On `[990, 1350)` the model sun is exactly `t - 990` degrees. -/
theorem linSun_eval {t : ℚ} (h0 : 990 ≤ t) (h1 : t < 1350) :
    linSun t = t - 990 := by
  unfold linSun
  rw [show (10 : ℚ) + (t - 1000) = t - 990 by ring]
  exact pymod_eq_self (by linarith) (by linarith)

/-- Closed form of the error function of the bisection under the model
ephemeris, on the part of the window the search actually visits. -/
theorem arc_err_lin {t : ℚ} (h0 : 991 ≤ t) (h1 : t ≤ 1151) :
    arc_err linSun 10 t = secTrunc t - 1000 + 88 := by
  have hs := secTrunc_bounds t
  unfold arc_err
  rw [linSun_eval (by linarith [hs.1]) (by linarith [hs.2])]
  rw [show secTrunc t - 990 - 10 + 540 = (secTrunc t - 1000) + 540 by ring]
  rw [pymod_unwrap (by linarith [hs.1]) (by linarith [hs.2])]
  ring

/-- The invariant of the bisection loop under the model ephemeris: once
`lo` has entered `[999, 1151]` with `hi = 1150`, every further iteration
keeps it there (the error is strictly positive on that whole region, so
the code always moves `lo` up and never moves `hi`). -/
theorem bisect_inv (n : ℕ) (s : ℚ × ℚ)
    (h : 999 ≤ s.1 ∧ s.1 ≤ 1151 ∧ s.2 = 1150) :
    999 ≤ (bisectSteps linSun 10 n s).1 ∧
    (bisectSteps linSun 10 n s).1 ≤ 1151 ∧
    (bisectSteps linSun 10 n s).2 = 1150 := by
  induction n generalizing s with
  | zero => exact h
  | succ n ih =>
    obtain ⟨lo, hi⟩ := s
    obtain ⟨h1, h2, h3⟩ := h
    dsimp only at h1 h2 h3
    subst h3
    have htd := tdHalf_bounds (1150 - lo)
    have hm1 : 1074 ≤ lo + tdHalf (1150 - lo) := by linarith [htd.1]
    have hm2 : lo + tdHalf (1150 - lo) ≤ 1151 := by linarith [htd.2]
    have herr : arc_err linSun 10 (lo + tdHalf (1150 - lo)) > 0 := by
      rw [arc_err_lin (by linarith) (by linarith)]
      have := (secTrunc_bounds (lo + tdHalf (1150 - lo))).1
      linarith
    have hbs : bisectStep linSun 10 (lo, 1150) =
        (lo + tdHalf (1150 - lo), 1150) := by
      unfold bisectStep
      dsimp only
      rw [if_pos herr]
    rw [show bisectSteps linSun 10 (n + 1) (lo, 1150) =
        bisectSteps linSun 10 n (bisectStep linSun 10 (lo, 1150)) from rfl]
    rw [hbs]
    exact ih (lo + tdHalf (1150 - lo), 1150)
      ⟨by dsimp only; linarith, by dsimp only; linarith, rfl⟩

theorem secTrunc_1000 : secTrunc 1000 = 1000 := by
  unfold secTrunc
  norm_num

theorem linSun_1000 : linSun 1000 = 10 := by
  rw [linSun_eval (by norm_num) (by norm_num)]
  norm_num

/-- The very first iteration: the midpoint is the natal instant itself,
where the error is `+88`, so the code discards the entire backward half
of the window that contains the solar-arc root. -/
theorem bisect_first_step :
    bisectStep linSun 10 (850, 1150) = (1000, 1150) := by
  have htd300 : tdHalf 300 = 150 := by
    unfold tdHalf MICROS_PER_DAY roundHalfEven
    norm_num
  have herr : arc_err linSun 10 ((850 : ℚ) + tdHalf (1150 - 850)) > 0 := by
    rw [show ((1150 : ℚ) - 850) = 300 by norm_num, htd300,
      show ((850 : ℚ) + 150) = 1000 by norm_num,
      arc_err_lin (by norm_num) (by norm_num), secTrunc_1000]
    norm_num
  unfold bisectStep
  dsimp only
  rw [if_pos herr]
  rw [show ((1150 : ℚ) - 850) = 300 by norm_num, htd300]
  norm_num

/-- C1 (the code at the failing input): under a monotone 1°/day model
ephemeris with natal instant at day 1000 (sun at 10°), the solar-arc
resolver returns an instant in `[999, 1151]` — about 150 days *forward*
of natal rather than 88° backward — and the signed shortest arc from the
natal sun longitude at the returned instant misses the target `-88°` by
more than the claimed `1e-4°` tolerance (indeed by at least 87°). -/
theorem solar_arc_resolver_diverges :
    999 ≤ design_time_from_solar_arc linSun 1000 ∧
    design_time_from_solar_arc linSun 1000 ≤ 1151 ∧
    1/10000 < |pymod (linSun (design_time_from_solar_arc linSun 1000)
      - linSun 1000 + 540) 360 - 180 - (-88)| := by
  have hsun0 : linSun (secTrunc 1000) = 10 := by
    rw [secTrunc_1000, linSun_1000]
  have hd : design_time_from_solar_arc linSun 1000 =
      (bisectSteps linSun 10 50 (850, 1150)).1 := by
    unfold design_time_from_solar_arc
    rw [hsun0]
    norm_num
  have h50 : bisectSteps linSun 10 50 (850, 1150) =
      bisectSteps linSun 10 49 (1000, 1150) := by
    rw [show bisectSteps linSun 10 50 (850, 1150) =
        bisectSteps linSun 10 49 (bisectStep linSun 10 (850, 1150)) from rfl]
    rw [bisect_first_step]
  have hinv := bisect_inv 49 (1000, 1150) ⟨by norm_num, by norm_num, rfl⟩
  rw [h50] at hd
  obtain ⟨hr1, hr2, -⟩ := hinv
  rw [← hd] at hr1 hr2
  refine ⟨hr1, hr2, ?_⟩
  rw [linSun_eval (by linarith) (by linarith), linSun_1000]
  rw [show design_time_from_solar_arc linSun 1000 - 990 - 10 + 540 =
      (design_time_from_solar_arc linSun 1000 - 1000) + 540 by ring]
  rw [pymod_unwrap (by linarith) (by linarith)]
  rw [abs_of_pos (by linarith)]
  linarith

end GeneGraph
